import Mathlib

set_option autoImplicit false

/-!
Verification of the Extra-P execution shells: the batch command-line driver
(extrap/extrap/extrapcmd.py) and the interactive GUI driver
(src/extrap/extrapgui.py).  Both drivers are shallowly embedded as pure
functions that produce a trace of the externally observable events (file
reads, model generation, dialogs, process termination) together with a
final outcome.  External collaborators that live outside these two files
(file readers, the modeler registries, the file-system predicates) are
abstracted into an environment record of functions.
-/

namespace ExtrapSpec

/-- Values carried by parsed modeler options.  The CLI option parser
(extrap/util/options_parser.py, outside the embedded sources) converts the
textual VALUE of each KEY=VALUE token into a typed value; the shape of the
value is irrelevant to the driver logic, which only tests it against None
and otherwise forwards it to an attribute assignment. -/
inductive Value where
  | vstr (s : String)
  | vint (n : Int)
  | vbool (b : Bool)
deriving DecidableEq

/-- Attribute store of a Python object: an association list from attribute
name to value, with at most one binding per name in all states reachable
by the embedded operations. -/
abbrev Attrs := List (String × Value)

/-- Embedding of Python getattr restricted to the modeled value type:
returns the value bound to the attribute name, if any. -/
def getattr : Attrs → String → Option Value
  | [], _ => none
  | (k1, v) :: t, k2 => if k1 = k2 then some v else getattr t k2

/-- Embedding of Python setattr: replaces the binding of the name when one
exists and otherwise creates a new binding.  Plain attribute assignment on
a Python object never fails and never validates the name. -/
def setattr : Attrs → String → Value → Attrs
  | [], k, v => [(k, v)]
  | (k0, v0) :: t, k, v => if k0 = k then (k, v) :: t else (k0, v0) :: setattr t k v

/-- Instance of a single-parameter modeler.  NAME is the declared name of
the modeler variant (each registered variant carries a NAME class
attribute); attrs are its option attributes. -/
structure SingleParameterModeler where
  NAME : String
  attrs : Attrs
deriving DecidableEq

/-- Instance of a modeler strategy as seen by extrapcmd.main.
isMultiParameter embeds the isinstance(modeler, MultiParameterModeler)
test of extrapcmd.py line 151; a multi-parameter modeler owns an optional
single_parameter_modeler sub-instance (extrapcmd.py lines 153-160). -/
structure Modeler where
  isMultiParameter : Bool
  single_parameter_modeler : Option SingleParameterModeler
  attrs : Attrs
deriving DecidableEq

/-- Modelled from the spec: the parse result of the --options argument.
The parser (ModelerOptionsAction in extrap/util/options_parser.py) is not
among the embedded sources; per the spec it produces a mapping holding the
reserved key selecting the nested single-parameter modeler variant, the
reserved key carrying the nested option mapping, and the remaining
top-level KEY=VALUE overrides for the active strategy. -/
structure ModelerOptions where
  single_parameter_modeler : Option String
  single_parameter_options : List (String × Option Value)
  top_level : List (String × Option Value)
deriving DecidableEq

/-- Truthiness of the parsed options dict (extrapcmd.py line 151 tests
`and arguments.modeler_options`): the dict is falsy iff nothing was
parsed into it. -/
def ModelerOptions.isEmpty (o : ModelerOptions) : Bool :=
  o.single_parameter_modeler == none && o.single_parameter_options.isEmpty
    && o.top_level.isEmpty

/-- Experiment object returned by a file reader.  Its contents are opaque
to the drivers; a tag suffices to track identity through the pipeline. -/
structure Experiment where
  tag : Nat
deriving DecidableEq

/-- Parsed command-line arguments of the batch driver, one field per
argparse destination (extrapcmd.py lines 41-76).  The five Boolean format
selectors form argparse's required mutually exclusive group
(lines 48-56). -/
structure Arguments where
  cube : Bool
  text : Bool
  talpas : Bool
  json : Bool
  extrap3 : Bool
  modeler : String
  modeler_options : ModelerOptions
  scaling_type : String
  median : Bool
  out : Option String
  print_type : String
  path : String

/-- Environment of external collaborators of extrapcmd.main: file-system
predicates, the single-parameter modeler registry (the list of registered
variant names), the five file readers, and the modeler instantiation
performed by ModelGenerator (which selects a fresh strategy instance by
name; mk_modeler receives the modeler name and the use_median flag). -/
structure Env where
  isdir : String → Bool
  isfile : String → Bool
  single_modelers : List String
  read_cube_file : String → String → Experiment
  read_text_file : String → Experiment
  read_talpas_file : String → Experiment
  read_json_file : String → Experiment
  read_extrap3_experiment : String → Experiment
  mk_modeler : String → Bool → Modeler

/-- Externally observable events of one batch-driver run. -/
inductive Event where
  | readCube (path scaling : String)
  | readText (path : String)
  | readTalpas (path : String)
  | readJson (path : String)
  | readExtrap3 (path : String)
  | logError (msg : String)
  | modelAll
  | printText
  | saveOutput (path : String)
deriving DecidableEq

/-- Final outcome of one batch-driver run: sys.exit with a code, an
uncaught Python exception (non-zero diagnostic termination), or a normal
return carrying the experiment and the configured modeler for
inspection. -/
inductive Outcome where
  | exitCode (c : Nat)
  | uncaught (msg : String)
  | finished (e : Experiment) (m : Modeler)
deriving DecidableEq

/-- Application of one option list by the loops of extrapcmd.py lines
157-160 and 162-164: every entry whose value is not None is assigned with
setattr; entries whose value is None are skipped. -/
def apply_option_list (attrs : Attrs) (opts : List (String × Option Value)) : Attrs :=
  opts.foldl (fun a p => match p.2 with
    | none => a
    | some v => setattr a p.1 v) attrs

/-- Modelled from the spec: lookup and instantiation in the
single-parameter modeler registry, `single_parameter.all_modelers[name]()`
(extrapcmd.py line 155; the registry module is not among the embedded
sources).  A registered name yields a fresh instance whose declared NAME
is that name and whose option attributes are defaults; an unregistered
name raises KeyError. -/
def all_modelers_get (registry : List String) (name : String) :
    Except String SingleParameterModeler :=
  if name ∈ registry then Except.ok ⟨name, []⟩
  else Except.error ("KeyError: " ++ name)

/-- Embedding of the option-application block of extrapcmd.py lines
150-164.  When the modeler is a MultiParameterModeler and the parsed
options dict is truthy: a non-None nested-modeler selection replaces the
single_parameter_modeler with a fresh instance of the named registry
variant (KeyError on an unknown name); then, when a sub-modeler is
present, the nested options are applied to it.  In every case the
top-level options are then applied to the active modeler with setattr.
No name validation of any kind is performed. -/
def configure_modeler (registry : List String) (modeler : Modeler)
    (opts : ModelerOptions) : Except String Modeler :=
  if modeler.isMultiParameter && !opts.isEmpty then
    match opts.single_parameter_modeler with
    | some name =>
      match all_modelers_get registry name with
      | Except.error e => Except.error e
      | Except.ok sp =>
        let m1 : Modeler := { modeler with single_parameter_modeler := some sp }
        let m2 : Modeler :=
          match m1.single_parameter_modeler with
          | some sp1 =>
            let sp2 : SingleParameterModeler :=
              { sp1 with attrs := apply_option_list sp1.attrs opts.single_parameter_options }
            { m1 with single_parameter_modeler := some sp2 }
          | none => m1
        Except.ok { m2 with attrs := apply_option_list m2.attrs opts.top_level }
    | none =>
      let m2 : Modeler :=
        match modeler.single_parameter_modeler with
        | some sp1 =>
          let sp2 : SingleParameterModeler :=
            { sp1 with attrs := apply_option_list sp1.attrs opts.single_parameter_options }
          { modeler with single_parameter_modeler := some sp2 }
        | none => modeler
      Except.ok { m2 with attrs := apply_option_list m2.attrs opts.top_level }
  else
    Except.ok { modeler with attrs := apply_option_list modeler.attrs opts.top_level }

/-- Embedding of extrapcmd.py lines 142-178: after an experiment has been
loaded, the ModelGenerator instantiates the named modeler, the options are
applied (an uncaught KeyError aborts the run), model_all fits all models,
the formatted output is printed, and, when --out was given, saved to the
output path.  evs is the trace accumulated by the loading phase. -/
def afterLoad (env : Env) (args : Arguments) (experiment : Experiment)
    (evs : List Event) : List Event × Outcome :=
  match configure_modeler env.single_modelers (env.mk_modeler args.modeler args.median)
      args.modeler_options with
  | Except.error e => (evs, Outcome.uncaught e)
  | Except.ok modeler2 =>
    match args.out with
    | some p => (evs ++ [Event.modelAll, Event.printText] ++ [Event.saveOutput p],
        Outcome.finished experiment modeler2)
    | none => (evs ++ [Event.modelAll, Event.printText], Outcome.finished experiment modeler2)

namespace Extrapcmd

/-- Embedding of the body of extrapcmd.main after argument parsing
(extrapcmd.py lines 113-178): the --cube selector requires a directory
path, the remaining selectors require a regular file; a directory-misuse
or missing-file error logs a message and exits with status 1; otherwise
the selected reader produces the experiment (the cube reader alone
receives the scaling type) and the run continues with afterLoad. -/
def main (env : Env) (args : Arguments) : List Event × Outcome :=
  if args.cube then
    if env.isdir args.path then
      afterLoad env args (env.read_cube_file args.path args.scaling_type)
        [Event.readCube args.path args.scaling_type]
    else
      ([Event.logError "The given path is not valid. It must point to a directory."],
        Outcome.exitCode 1)
  else if env.isfile args.path then
    if args.text then
      afterLoad env args (env.read_text_file args.path) [Event.readText args.path]
    else if args.talpas then
      afterLoad env args (env.read_talpas_file args.path) [Event.readTalpas args.path]
    else if args.json then
      afterLoad env args (env.read_json_file args.path) [Event.readJson args.path]
    else if args.extrap3 then
      afterLoad env args (env.read_extrap3_experiment args.path) [Event.readExtrap3 args.path]
    else
      ([Event.logError "The file format specifier is missing."], Outcome.exitCode 1)
  else
    ([Event.logError "The given file path is not valid."], Outcome.exitCode 1)

end Extrapcmd

/-- Count of the format selectors that are set; argparse's required
mutually exclusive group (extrapcmd.py lines 48-56) guarantees this count
is exactly one whenever parsing succeeds. -/
def selectorCount (args : Arguments) : Nat :=
  (if args.cube then 1 else 0) + (if args.text then 1 else 0)
    + (if args.talpas then 1 else 0) + (if args.json then 1 else 0)
    + (if args.extrap3 then 1 else 0)

namespace Extrapgui

/-- Externally observable events of one interactive-driver run
(extrapgui.py main): the background font-preloader thread is started, the
main window is shown, a startup file may be read and either modeled
(MainWidget.model_experiment, which runs the model generator) or merely
installed (MainWidget.setExperiment), the Qt event loop runs
(app.exec_()), the preloader thread is joined, and in test mode the
session objects are returned. -/
inductive GuiEvent where
  | preloaderStart
  | windowShow
  | readTextFile (path : String)
  | readJsonFile (path : String)
  | readExtrap3File (path : String)
  | modelExperiment
  | setExperiment
  | eventLoop
  | preloaderJoin
  | returnSession
deriving DecidableEq

/-- Embedding of the startup-file dispatch of extrapgui.py lines 108-119:
when at least three argv entries are present and argv[1] is one of the
three selectors, the file named by argv[2] is read with the matching
reader; for --text and --json the experiment is then handed to
window.model_experiment (which runs the model generator), while for
--extra-p-3 it is handed to window.setExperiment. -/
def loadPhase (argv : List String) : List GuiEvent :=
  if 3 ≤ argv.length ∧ argv.get? 1 = some "--text" then
    [GuiEvent.readTextFile (argv.getD 2 ""), GuiEvent.modelExperiment]
  else if 3 ≤ argv.length ∧ argv.get? 1 = some "--json" then
    [GuiEvent.readJsonFile (argv.getD 2 ""), GuiEvent.modelExperiment]
  else if 3 ≤ argv.length ∧ argv.get? 1 = some "--extra-p-3" then
    [GuiEvent.readExtrap3File (argv.getD 2 ""), GuiEvent.setExperiment]
  else []

/-- Embedding of extrapgui.py lines 121-126: outside test mode the Qt
event loop runs and the font preloader is joined afterwards; in test mode
the preloader is joined and the window and application objects are
returned without entering the event loop. -/
def tailPhase (test : Bool) : List GuiEvent :=
  if test then [GuiEvent.preloaderJoin, GuiEvent.returnSession]
  else [GuiEvent.eventLoop, GuiEvent.preloaderJoin]

/-- Embedding of extrapgui.py main (lines 41-126) as its event trace: the
font preloader thread is started first (line 43), the window is
constructed and shown (lines 69 and 106), the startup file dispatch runs
(lines 108-119), and the run closes with the mode-dependent tail
(lines 121-126). -/
def main (test : Bool) (argv : List String) : List GuiEvent :=
  GuiEvent.preloaderStart :: GuiEvent.windowShow :: (loadPhase argv ++ tailPhase test)

/-- Relevant data of one uncaught exception as seen by the installed
exception handler: whether its type is a subclass of RecoverableError
(extrapgui.py line 95), and its message. -/
structure ExcInfo where
  recoverable : Bool
  message : String
deriving DecidableEq

/-- Observable actions of the installed exception handler: forwarding to
the previously installed default handler, showing the dialog without
blocking (QMessageBox.open), showing the dialog and blocking until it is
dismissed (QMessageBox.exec_, which the source comments with "ensures
waiting"), and terminating the process with an exit code. -/
inductive HandlerEvent where
  | forwardDefault
  | dialogOpen
  | dialogExec
  | exitWithCode (c : Nat)
deriving DecidableEq

/-- Embedding of _exception_handler (extrapgui.py lines 83-101) as the
sequence of its observable actions.  In test mode it only forwards to the
old handler.  Otherwise, for a RecoverableError subclass it forwards and
shows the dialog via the non-blocking open call; for any other exception
it forwards, shows the dialog via the blocking exec_ call, and then calls
exit(1). -/
def exception_handler (test : Bool) (exc : ExcInfo) : List HandlerEvent :=
  if test then [HandlerEvent.forwardDefault]
  else if exc.recoverable then
    [HandlerEvent.forwardDefault, HandlerEvent.dialogOpen]
  else
    [HandlerEvent.forwardDefault, HandlerEvent.dialogExec, HandlerEvent.exitWithCode 1]

end Extrapgui

/-! Basic lemmas about the attribute store and option application. -/

theorem getattr_setattr_self (a : Attrs) (k : String) (v : Value) :
    getattr (setattr a k v) k = some v := by
  induction a with
  | nil => simp [setattr, getattr]
  | cons p t ih =>
    obtain ⟨k0, v0⟩ := p
    by_cases hk : k0 = k
    · simp [setattr, hk, getattr]
    · simp [setattr, hk, getattr, ih]

theorem getattr_setattr_ne (a : Attrs) (k k2 : String) (v : Value) (h : k ≠ k2) :
    getattr (setattr a k v) k2 = getattr a k2 := by
  induction a with
  | nil => simp [setattr, getattr, h]
  | cons p t ih =>
    obtain ⟨k0, v0⟩ := p
    by_cases hk : k0 = k
    · subst hk
      simp [setattr, getattr, h]
    · simp [setattr, hk, getattr, ih]

theorem apply_option_list_nil (a : Attrs) : apply_option_list a [] = a := rfl

theorem apply_option_list_cons_none (a : Attrs) (k : String)
    (t : List (String × Option Value)) :
    apply_option_list a ((k, none) :: t) = apply_option_list a t := rfl

theorem apply_option_list_cons_some (a : Attrs) (k : String) (v : Value)
    (t : List (String × Option Value)) :
    apply_option_list a ((k, some v) :: t) = apply_option_list (setattr a k v) t := rfl

theorem getattr_apply_option_list_not_key (a : Attrs) (l : List (String × Option Value))
    (name : String) (h : name ∉ l.map Prod.fst) :
    getattr (apply_option_list a l) name = getattr a name := by
  induction l generalizing a with
  | nil => rfl
  | cons p t ih =>
    obtain ⟨k, ov⟩ := p
    simp only [List.map_cons, List.mem_cons] at h
    push_neg at h
    cases ov with
    | none =>
      rw [apply_option_list_cons_none]
      exact ih a h.2
    | some v =>
      rw [apply_option_list_cons_some, ih (setattr a k v) h.2,
        getattr_setattr_ne a k name v (Ne.symm h.1)]

theorem getattr_apply_option_list_mem (a : Attrs) (l : List (String × Option Value))
    (name : String) (v : Value) (hmem : (name, some v) ∈ l)
    (hnd : (l.map Prod.fst).Nodup) :
    getattr (apply_option_list a l) name = some v := by
  induction l generalizing a with
  | nil => cases hmem
  | cons p t ih =>
    obtain ⟨k, ov⟩ := p
    simp only [List.map_cons, List.nodup_cons] at hnd
    rcases List.mem_cons.mp hmem with heq | hmem2
    · injection heq with h1 h2
      subst h1
      subst h2
      rw [apply_option_list_cons_some,
        getattr_apply_option_list_not_key (setattr a name v) t name hnd.1,
        getattr_setattr_self]
    · have hk : k ≠ name := by
        intro hkn
        subst hkn
        exact hnd.1 (List.mem_map.mpr ⟨(k, some v), hmem2, rfl⟩)
      cases ov with
      | none =>
        rw [apply_option_list_cons_none]
        exact ih a hmem2 hnd.2
      | some v0 =>
        rw [apply_option_list_cons_some]
        exact ih (setattr a k v0) hmem2 hnd.2

theorem getattr_apply_option_list_skip (a : Attrs) (l : List (String × Option Value))
    (name : String) (hmem : (name, (none : Option Value)) ∈ l)
    (hnd : (l.map Prod.fst).Nodup) :
    getattr (apply_option_list a l) name = getattr a name := by
  induction l generalizing a with
  | nil => cases hmem
  | cons p t ih =>
    obtain ⟨k, ov⟩ := p
    simp only [List.map_cons, List.nodup_cons] at hnd
    rcases List.mem_cons.mp hmem with heq | hmem2
    · injection heq with h1 h2
      subst h1
      subst h2
      rw [apply_option_list_cons_none,
        getattr_apply_option_list_not_key a t name hnd.1]
    · have hk : k ≠ name := by
        intro hkn
        subst hkn
        exact hnd.1 (List.mem_map.mpr ⟨(k, none), hmem2, rfl⟩)
      cases ov with
      | none =>
        rw [apply_option_list_cons_none]
        exact ih a hmem2 hnd.2
      | some v0 =>
        rw [apply_option_list_cons_some, ih (setattr a k v0) hmem2 hnd.2,
          getattr_setattr_ne a k name v0 hk]

/-! Trace-shape lemmas for the batch and interactive drivers. -/

theorem afterLoad_fst (env : Env) (args : Arguments) (exp : Experiment)
    (evs : List Event) :
    (afterLoad env args exp evs).1 = evs ∨
    (afterLoad env args exp evs).1 = evs ++ [Event.modelAll, Event.printText] ∨
    ∃ p, (afterLoad env args exp evs).1
      = evs ++ [Event.modelAll, Event.printText] ++ [Event.saveOutput p] := by
  unfold afterLoad
  rcases configure_modeler env.single_modelers (env.mk_modeler args.modeler args.median)
      args.modeler_options with e | m
  · left
    rfl
  · rcases args.out with _ | p
    · right
      left
      rfl
    · right
      right
      exact ⟨p, rfl⟩

theorem afterLoad_logError (env : Env) (args : Arguments) (exp : Experiment)
    (evs : List Event) (msg : String)
    (h : Event.logError msg ∈ (afterLoad env args exp evs).1) :
    Event.logError msg ∈ evs := by
  rcases afterLoad_fst env args exp evs with h1 | h1 | ⟨p, h1⟩
  · rw [h1] at h
    exact h
  · rw [h1] at h
    simpa using h
  · rw [h1] at h
    simpa using h

theorem tailPhase_no_modelExperiment (test : Bool) :
    Extrapgui.GuiEvent.modelExperiment ∉ Extrapgui.tailPhase test := by
  cases test <;> simp [Extrapgui.tailPhase]

theorem loadPhase_no_shell_events (argv : List String) :
    Extrapgui.GuiEvent.eventLoop ∉ Extrapgui.loadPhase argv ∧
    Extrapgui.GuiEvent.preloaderJoin ∉ Extrapgui.loadPhase argv ∧
    Extrapgui.GuiEvent.returnSession ∉ Extrapgui.loadPhase argv := by
  unfold Extrapgui.loadPhase
  split_ifs <;> simp

/-! Claim theorems. -/

/-- C2 counterexample: claim C2 states that for a recoverable uncaught
exception the handler shows a blocking dialog.  At this concrete
recoverable exception, in non-test mode, the handler shows the dialog via
the non-blocking QMessageBox.open call (the blocking QMessageBox.exec_
call is never made), so the claimed blocking dialog does not occur; the
session does continue (no exit event). -/
theorem C2_counterexample :
    Extrapgui.exception_handler false ⟨true, "insufficient measurements"⟩
      = [Extrapgui.HandlerEvent.forwardDefault, Extrapgui.HandlerEvent.dialogOpen]
    ∧ Extrapgui.HandlerEvent.dialogExec
        ∉ Extrapgui.exception_handler false ⟨true, "insufficient measurements"⟩
    ∧ Extrapgui.HandlerEvent.exitWithCode 1
        ∉ Extrapgui.exception_handler false ⟨true, "insufficient measurements"⟩ := by
  decide

/-- C2 (amended): in non-test mode, for every uncaught exception whose
type is a RecoverableError subclass, the installed handler forwards the
exception to the previously installed default handler and shows the
dialog via the non-blocking open call; it performs no blocking exec call
and no exit, so the process is not terminated and the event loop remains
usable. -/
theorem C2_theorem (exc : Extrapgui.ExcInfo) (h : exc.recoverable = true) :
    Extrapgui.exception_handler false exc
      = [Extrapgui.HandlerEvent.forwardDefault, Extrapgui.HandlerEvent.dialogOpen] := by
  unfold Extrapgui.exception_handler
  simp [h]

/-- C2 witness: the amended C2 theorem applied to a concrete recoverable
exception. -/
theorem C2_witness :
    Extrapgui.exception_handler false ⟨true, "m"⟩
      = [Extrapgui.HandlerEvent.forwardDefault, Extrapgui.HandlerEvent.dialogOpen] :=
  C2_theorem ⟨true, "m"⟩ rfl

/-- C6: in non-test mode, for every uncaught exception whose type is not
a RecoverableError subclass, the installed handler first forwards the
exception to the previously installed default handler, then shows the
dialog via the blocking exec_ call (waiting for dismissal), and then
terminates the process via exit(1), a non-zero status. -/
theorem C6_theorem (exc : Extrapgui.ExcInfo) (h : exc.recoverable = false) :
    Extrapgui.exception_handler false exc
      = [Extrapgui.HandlerEvent.forwardDefault, Extrapgui.HandlerEvent.dialogExec,
         Extrapgui.HandlerEvent.exitWithCode 1] := by
  unfold Extrapgui.exception_handler
  simp [h]

/-- C6 witness: the C6 theorem applied to a concrete non-recoverable
exception. -/
theorem C6_witness :
    Extrapgui.exception_handler false ⟨false, "boom"⟩
      = [Extrapgui.HandlerEvent.forwardDefault, Extrapgui.HandlerEvent.dialogExec,
         Extrapgui.HandlerEvent.exitWithCode 1] :=
  C6_theorem ⟨false, "boom"⟩ rfl

/-- C3 counterexample: claim C3 states that in non-test mode the font
preloader is joined before the event loop starts.  At the concrete argv
below the non-test trace runs the event loop at position 2 and joins the
preloader only at position 3, so the join does not precede the event
loop. -/
theorem C3_counterexample :
    Extrapgui.main false ["extrap-gui"]
      = [Extrapgui.GuiEvent.preloaderStart, Extrapgui.GuiEvent.windowShow,
         Extrapgui.GuiEvent.eventLoop, Extrapgui.GuiEvent.preloaderJoin]
    ∧ ¬ ((Extrapgui.main false ["extrap-gui"]).indexOf Extrapgui.GuiEvent.preloaderJoin
        < (Extrapgui.main false ["extrap-gui"]).indexOf Extrapgui.GuiEvent.eventLoop) := by
  decide

/-- C3 (amended): in non-test mode the interactive driver enters the event
loop and joins the font-preloading worker only after the event loop
returns (the run ends with the event loop followed by the join, and the
join never occurs earlier); in test mode the worker is joined and then the
session objects are returned, without ever entering the event loop. -/
theorem C3_theorem (argv : List String) :
    (∃ pre, Extrapgui.main false argv
        = pre ++ [Extrapgui.GuiEvent.eventLoop, Extrapgui.GuiEvent.preloaderJoin]
      ∧ Extrapgui.GuiEvent.eventLoop ∉ pre
      ∧ Extrapgui.GuiEvent.preloaderJoin ∉ pre)
    ∧ (∃ pre, Extrapgui.main true argv
        = pre ++ [Extrapgui.GuiEvent.preloaderJoin, Extrapgui.GuiEvent.returnSession]
      ∧ Extrapgui.GuiEvent.preloaderJoin ∉ pre)
    ∧ Extrapgui.GuiEvent.eventLoop ∉ Extrapgui.main true argv := by
  obtain ⟨hLoop, hJoin, hRet⟩ := loadPhase_no_shell_events argv
  refine ⟨⟨Extrapgui.GuiEvent.preloaderStart :: Extrapgui.GuiEvent.windowShow
      :: Extrapgui.loadPhase argv, ?_, ?_, ?_⟩,
    ⟨Extrapgui.GuiEvent.preloaderStart :: Extrapgui.GuiEvent.windowShow
      :: Extrapgui.loadPhase argv, ?_, ?_⟩, ?_⟩
  · simp [Extrapgui.main, Extrapgui.tailPhase]
  · simp [hLoop]
  · simp [hJoin]
  · simp [Extrapgui.main, Extrapgui.tailPhase]
  · simp [hJoin]
  · simp [Extrapgui.main, Extrapgui.tailPhase, hLoop]

/-- C5 counterexample: claim C5 states that each of the three startup
arguments runs the model generator against the loaded experiment.  With
the concrete argv below, the --extra-p-3 startup path reads the file and
hands the experiment to window.setExperiment: no model-generator run
(window.model_experiment) occurs anywhere in the trace. -/
theorem C5_counterexample :
    Extrapgui.main false ["extrap-gui", "--extra-p-3", "old.extrap3"]
      = [Extrapgui.GuiEvent.preloaderStart, Extrapgui.GuiEvent.windowShow,
         Extrapgui.GuiEvent.readExtrap3File "old.extrap3", Extrapgui.GuiEvent.setExperiment,
         Extrapgui.GuiEvent.eventLoop, Extrapgui.GuiEvent.preloaderJoin]
    ∧ Extrapgui.GuiEvent.modelExperiment
        ∉ Extrapgui.main false ["extrap-gui", "--extra-p-3", "old.extrap3"] := by
  decide

/-- C5 (amended): for startup arguments --text PATH and --json PATH the
interactive driver loads the file with the corresponding reader and
immediately runs the model generator (window.model_experiment) before the
event loop; for --extra-p-3 PATH it loads the file with the legacy reader
and installs the experiment via window.setExperiment before the event
loop, without running the model generator. -/
theorem C5_theorem (test : Bool) (prog p : String) (rest : List String) :
    Extrapgui.main test (prog :: "--text" :: p :: rest)
      = [Extrapgui.GuiEvent.preloaderStart, Extrapgui.GuiEvent.windowShow,
         Extrapgui.GuiEvent.readTextFile p, Extrapgui.GuiEvent.modelExperiment]
        ++ Extrapgui.tailPhase test
    ∧ Extrapgui.main test (prog :: "--json" :: p :: rest)
      = [Extrapgui.GuiEvent.preloaderStart, Extrapgui.GuiEvent.windowShow,
         Extrapgui.GuiEvent.readJsonFile p, Extrapgui.GuiEvent.modelExperiment]
        ++ Extrapgui.tailPhase test
    ∧ Extrapgui.main test (prog :: "--extra-p-3" :: p :: rest)
      = [Extrapgui.GuiEvent.preloaderStart, Extrapgui.GuiEvent.windowShow,
         Extrapgui.GuiEvent.readExtrap3File p, Extrapgui.GuiEvent.setExperiment]
        ++ Extrapgui.tailPhase test
    ∧ Extrapgui.GuiEvent.modelExperiment
        ∉ Extrapgui.main test (prog :: "--extra-p-3" :: p :: rest) := by
  have ht := tailPhase_no_modelExperiment test
  refine ⟨?_, ?_, ?_, ?_⟩
  · simp [Extrapgui.main, Extrapgui.loadPhase]
  · simp [Extrapgui.main, Extrapgui.loadPhase]
  · simp [Extrapgui.main, Extrapgui.loadPhase]
  · simp [Extrapgui.main, Extrapgui.loadPhase, ht]

/-! Concrete fixtures for the batch-driver claims. -/

/-- Concrete environment in which every path is a regular file and the
selected modeler is a single-parameter strategy with one existing
attribute. -/
def envFile : Env where
  isdir := fun _ => false
  isfile := fun _ => true
  single_modelers := ["Basic", "Refining"]
  read_cube_file := fun _ _ => ⟨0⟩
  read_text_file := fun _ => ⟨1⟩
  read_talpas_file := fun _ => ⟨2⟩
  read_json_file := fun _ => ⟨3⟩
  read_extrap3_experiment := fun _ => ⟨4⟩
  mk_modeler := fun _ _ =>
    { isMultiParameter := false, single_parameter_modeler := none,
      attrs := [("epsilon", Value.vint 1)] }

/-- Concrete environment in which every path is a directory (and hence
not a regular file). -/
def envDir : Env :=
  { envFile with isdir := fun _ => true, isfile := fun _ => false }

/-- Concrete environment whose selected modeler is a multi-parameter
strategy owning a default single-parameter sub-modeler. -/
def envMulti : Env :=
  { envFile with mk_modeler := fun _ _ =>
      { isMultiParameter := true,
        single_parameter_modeler := some ⟨"Basic", [("threshold", Value.vint 3)]⟩,
        attrs := [("alpha", Value.vint 7)] } }

/-- Concrete parsed arguments: a text-file run with no options. -/
def argsBase : Arguments where
  cube := false
  text := true
  talpas := false
  json := false
  extrap3 := false
  modeler := "Default"
  modeler_options :=
    { single_parameter_modeler := none, single_parameter_options := [], top_level := [] }
  scaling_type := "weak"
  median := false
  out := none
  print_type := "all"
  path := "data.txt"

/-- Concrete arguments carrying one top-level option whose name matches
no attribute of the selected strategy. -/
def args1 : Arguments :=
  { argsBase with modeler_options :=
      { single_parameter_modeler := none, single_parameter_options := [],
        top_level := [("no_such_attribute", some (Value.vint 5))] } }

/-- Concrete arguments: a text-file run with an output path, pointed at a
directory. -/
def args4 : Arguments :=
  { argsBase with out := some "out.txt", path := "cube_dir" }

/-- Concrete arguments: a cube run on a directory with strong scaling. -/
def args8 : Arguments :=
  { argsBase with cube := true, text := false, scaling_type := "strong", path := "cube_dir" }

/-- Concrete arguments selecting the nested single-parameter modeler
"Refining" with one nested option. -/
def args7 : Arguments :=
  { argsBase with modeler := "MultiParam", modeler_options :=
      { single_parameter_modeler := some "Refining",
        single_parameter_options := [("epsilon", some (Value.vint 2))],
        top_level := [] } }

/-- Concrete arguments whose top-level and nested option values are both
None. -/
def args10 : Arguments :=
  { argsBase with modeler_options :=
      { single_parameter_modeler := none,
        single_parameter_options := [("threshold", none)],
        top_level := [("alpha", none)] } }

/-- Computation of the configured modeler when no nested modeler is
selected: configuration always succeeds and the active modeler's own
attributes are the result of applying the top-level options. -/
theorem configure_modeler_ok_attrs (registry : List String) (M : Modeler)
    (opts : ModelerOptions) (hspm : opts.single_parameter_modeler = none) :
    ∃ m, configure_modeler registry M opts = Except.ok m
      ∧ m.attrs = apply_option_list M.attrs opts.top_level := by
  unfold configure_modeler
  by_cases hmul : (M.isMultiParameter && !opts.isEmpty) = true
  · rw [if_pos hmul, hspm]
    cases hsub : M.single_parameter_modeler with
    | none => exact ⟨_, rfl, rfl⟩
    | some sp => exact ⟨_, rfl, rfl⟩
  · rw [if_neg hmul]
    exact ⟨_, rfl, rfl⟩

/-- C1 counterexample: claim C1 states that an option whose name matches
no attribute of the strategy raises a configuration error before
model_all.  At this concrete run the strategy has no attribute named
no_such_attribute, yet the run logs no error, invokes model_all, finishes
normally, and the override is silently applied (the attribute is
created). -/
theorem C1_counterexample :
    Extrapcmd.main envFile args1
      = ([Event.readText "data.txt", Event.modelAll, Event.printText],
         Outcome.finished ⟨1⟩
           { isMultiParameter := false, single_parameter_modeler := none,
             attrs := [("epsilon", Value.vint 1), ("no_such_attribute", Value.vint 5)] })
    ∧ getattr (envFile.mk_modeler "Default" false).attrs "no_such_attribute" = none := by
  decide

/-- C1 (amended): the batch driver applies every modeler option with a
non-None value by unchecked attribute assignment: even when the option
name matches no existing attribute it is silently applied (creating the
attribute on the strategy instance), no configuration error is raised,
and the run still reaches model_all and finishes normally. -/
theorem C1_theorem (env : Env) (args : Arguments) (exp : Experiment)
    (evs : List Event) (name : String) (v : Value)
    (hspm : args.modeler_options.single_parameter_modeler = none)
    (hmem : (name, some v) ∈ args.modeler_options.top_level)
    (hnd : (args.modeler_options.top_level.map Prod.fst).Nodup) :
    ∃ m, (afterLoad env args exp evs).2 = Outcome.finished exp m
      ∧ getattr m.attrs name = some v
      ∧ Event.modelAll ∈ (afterLoad env args exp evs).1 := by
  obtain ⟨m, hc, hattrs⟩ := configure_modeler_ok_attrs env.single_modelers
    (env.mk_modeler args.modeler args.median) args.modeler_options hspm
  refine ⟨m, ?_, ?_, ?_⟩
  · unfold afterLoad
    rw [hc]
    cases args.out <;> rfl
  · rw [hattrs]
    exact getattr_apply_option_list_mem _ _ _ _ hmem hnd
  · unfold afterLoad
    rw [hc]
    cases args.out <;> simp

/-- C1 witness: the amended C1 theorem applied to the concrete fixture
with the unknown option name. -/
theorem C1_witness :
    ∃ m, (afterLoad envFile args1 ⟨1⟩ []).2 = Outcome.finished ⟨1⟩ m
      ∧ getattr m.attrs "no_such_attribute" = some (Value.vint 5)
      ∧ Event.modelAll ∈ (afterLoad envFile args1 ⟨1⟩ []).1 :=
  C1_theorem envFile args1 ⟨1⟩ [] "no_such_attribute" (Value.vint 5) rfl (by decide)
    (by decide)

/-- C4 counterexample: claim C4 states that a directory path without
--cube exits with a format-specifier-missing class of message.  At this
concrete run (directory path, --text selector, --out given) the driver
exits with status 1 but logs "The given file path is not valid." instead;
the format-specifier message never appears, and no output file is written
even though --out was given. -/
theorem C4_counterexample :
    Extrapcmd.main envDir args4
      = ([Event.logError "The given file path is not valid."], Outcome.exitCode 1)
    ∧ Event.logError "The file format specifier is missing." ∉ (Extrapcmd.main envDir args4).1
    ∧ Event.saveOutput "out.txt" ∉ (Extrapcmd.main envDir args4).1 := by
  decide

/-- C4 (amended): for every batch invocation where the path is a
directory (hence not a regular file) and --cube is not given, the run
logs "The given file path is not valid." and exits with status 1; the
trace consists of that single logged error, so no output file is written
even if --out was given. -/
theorem C4_theorem (env : Env) (args : Arguments)
    (hdir : env.isdir args.path = true)
    (hfile : env.isfile args.path = false)
    (hcube : args.cube = false) :
    Extrapcmd.main env args
      = ([Event.logError "The given file path is not valid."], Outcome.exitCode 1) := by
  unfold Extrapcmd.main
  simp [hcube, hfile]

/-- C4 witness: the amended C4 theorem applied to the concrete
directory-path fixture. -/
theorem C4_witness :
    Extrapcmd.main envDir args4
      = ([Event.logError "The given file path is not valid."], Outcome.exitCode 1) :=
  C4_theorem envDir args4 rfl rfl rfl

/-- Computation of the configured modeler when the reserved nested key
names a registered single-parameter variant: the sub-modeler is replaced
by a fresh instance of that variant, the nested options are applied onto
it, and the top-level options are applied onto the active modeler. -/
theorem configure_modeler_override (registry : List String) (M : Modeler)
    (opts : ModelerOptions) (name : String)
    (hmul : M.isMultiParameter = true)
    (hspm : opts.single_parameter_modeler = some name)
    (hreg : name ∈ registry) :
    configure_modeler registry M opts
      = Except.ok
          { isMultiParameter := M.isMultiParameter,
            single_parameter_modeler :=
              some ⟨name, apply_option_list [] opts.single_parameter_options⟩,
            attrs := apply_option_list M.attrs opts.top_level } := by
  simp [configure_modeler, ModelerOptions.isEmpty, all_modelers_get, hmul, hspm, hreg]

/-- C7: for every batch run reaching configuration with a multi-parameter
strategy, if the reserved nested-strategy option names a registered
single-parameter variant, the configured composite strategy owns a
sub-strategy that is an instance of exactly that variant (its declared
NAME is the requested name), the nested non-None options are applied onto
that sub-strategy instance, and model_all is then invoked on the
configured strategy. -/
theorem C7_theorem (env : Env) (args : Arguments) (exp : Experiment)
    (evs : List Event) (name k : String) (v : Value)
    (hmul : (env.mk_modeler args.modeler args.median).isMultiParameter = true)
    (hspm : args.modeler_options.single_parameter_modeler = some name)
    (hreg : name ∈ env.single_modelers)
    (hmem : (k, some v) ∈ args.modeler_options.single_parameter_options)
    (hnd : (args.modeler_options.single_parameter_options.map Prod.fst).Nodup) :
    ∃ m sp, (afterLoad env args exp evs).2 = Outcome.finished exp m
      ∧ m.single_parameter_modeler = some sp
      ∧ sp.NAME = name
      ∧ getattr sp.attrs k = some v
      ∧ Event.modelAll ∈ (afterLoad env args exp evs).1 := by
  have hc := configure_modeler_override env.single_modelers
    (env.mk_modeler args.modeler args.median) args.modeler_options name hmul hspm hreg
  refine ⟨⟨(env.mk_modeler args.modeler args.median).isMultiParameter,
      some ⟨name, apply_option_list [] args.modeler_options.single_parameter_options⟩,
      apply_option_list (env.mk_modeler args.modeler args.median).attrs
        args.modeler_options.top_level⟩,
    ⟨name, apply_option_list [] args.modeler_options.single_parameter_options⟩,
    ?_, rfl, rfl, ?_, ?_⟩
  · unfold afterLoad
    rw [hc]
    cases args.out <;> rfl
  · exact getattr_apply_option_list_mem [] _ k v hmem hnd
  · unfold afterLoad
    rw [hc]
    cases args.out <;> simp

/-- C7 witness: the C7 theorem applied to the concrete multi-parameter
fixture selecting the registered variant Refining with one nested
option. -/
theorem C7_witness :
    ∃ m sp, (afterLoad envMulti args7 ⟨1⟩ []).2 = Outcome.finished ⟨1⟩ m
      ∧ m.single_parameter_modeler = some sp
      ∧ sp.NAME = "Refining"
      ∧ getattr sp.attrs "epsilon" = some (Value.vint 2)
      ∧ Event.modelAll ∈ (afterLoad envMulti args7 ⟨1⟩ []).1 :=
  C7_theorem envMulti args7 ⟨1⟩ [] "Refining" "epsilon" (Value.vint 2) rfl rfl
    (by decide) (by decide) (by decide)

/-- Identical behavior of the pipeline tail under a change of the scaling
type: after loading, no step of the batch driver reads the scaling
argument. -/
theorem afterLoad_scaling_irrel (env : Env) (args : Arguments) (s : String)
    (exp : Experiment) (evs : List Event) :
    afterLoad env { args with scaling_type := s } exp evs = afterLoad env args exp evs := rfl

/-- C8: the --scaling value is forwarded unchanged to the cube reader (a
cube run's first event is the cube read carrying exactly the given
scaling type), and for every run with the cube selector off the entire
run — trace, experiment, and outcome — is independent of the scaling
value, which is never passed to any of the other readers. -/
theorem C8_theorem (env : Env) (args : Arguments) (s1 s2 : String) :
    (args.cube = true → env.isdir args.path = true →
      (Extrapcmd.main env args).1.head? = some (Event.readCube args.path args.scaling_type))
    ∧ (args.cube = false →
      Extrapcmd.main env { args with scaling_type := s1 }
        = Extrapcmd.main env { args with scaling_type := s2 }) := by
  constructor
  · intro hc hd
    unfold Extrapcmd.main
    simp only [hc, hd, if_true]
    rcases afterLoad_fst env args (env.read_cube_file args.path args.scaling_type)
        [Event.readCube args.path args.scaling_type] with h | h | ⟨p, h⟩ <;> rw [h] <;> rfl
  · intro hc
    obtain ⟨c, te, ta, js, e3, mo, mop, st, md, ou, pt, pa⟩ := args
    subst hc
    rfl

/-- C8 witness: the C8 theorem applied to a concrete cube run (first
part) and to a concrete text run under two scaling values (second
part). -/
theorem C8_witness :
    (Extrapcmd.main envDir args8).1.head? = some (Event.readCube "cube_dir" "strong")
    ∧ Extrapcmd.main envFile { argsBase with scaling_type := "weak" }
        = Extrapcmd.main envFile { argsBase with scaling_type := "strong" } :=
  ⟨(C8_theorem envDir args8 "weak" "strong").1 rfl rfl,
   (C8_theorem envFile argsBase "weak" "strong").2 rfl⟩

/-- C9: for every environment and every successfully parsed argument
vector — argparse's required mutually exclusive group guarantees exactly
one of the five format selectors is set, embedded here as the
selectorCount hypothesis — the batch driver never logs "The file format
specifier is missing.": that error branch is unreachable. -/
theorem C9_theorem (env : Env) (args : Arguments) (h : selectorCount args = 1) :
    Event.logError "The file format specifier is missing." ∉ (Extrapcmd.main env args).1 := by
  intro hmem
  unfold Extrapcmd.main at hmem
  by_cases hc : args.cube = true
  · rw [if_pos hc] at hmem
    by_cases hd : env.isdir args.path = true
    · rw [if_pos hd] at hmem
      have h2 := afterLoad_logError _ _ _ _ _ hmem
      simp at h2
    · rw [if_neg hd] at hmem
      exact absurd hmem (by decide)
  · rw [if_neg hc] at hmem
    by_cases hf : env.isfile args.path = true
    · rw [if_pos hf] at hmem
      by_cases ht : args.text = true
      · rw [if_pos ht] at hmem
        have h2 := afterLoad_logError _ _ _ _ _ hmem
        simp at h2
      · rw [if_neg ht] at hmem
        by_cases hta : args.talpas = true
        · rw [if_pos hta] at hmem
          have h2 := afterLoad_logError _ _ _ _ _ hmem
          simp at h2
        · rw [if_neg hta] at hmem
          by_cases hj : args.json = true
          · rw [if_pos hj] at hmem
            have h2 := afterLoad_logError _ _ _ _ _ hmem
            simp at h2
          · rw [if_neg hj] at hmem
            by_cases he : args.extrap3 = true
            · rw [if_pos he] at hmem
              have h2 := afterLoad_logError _ _ _ _ _ hmem
              simp at h2
            · have hc2 : args.cube = false := by revert hc; cases args.cube <;> simp
              have ht2 : args.text = false := by revert ht; cases args.text <;> simp
              have hta2 : args.talpas = false := by revert hta; cases args.talpas <;> simp
              have hj2 : args.json = false := by revert hj; cases args.json <;> simp
              have he2 : args.extrap3 = false := by revert he; cases args.extrap3 <;> simp
              simp [selectorCount, hc2, ht2, hta2, hj2, he2] at h
    · rw [if_neg hf] at hmem
      exact absurd hmem (by decide)

/-- C9 witness: the C9 theorem applied to the concrete text-run fixture,
whose selector count is one. -/
theorem C9_witness :
    Event.logError "The file format specifier is missing."
      ∉ (Extrapcmd.main envFile argsBase).1 :=
  C9_theorem envFile argsBase (by decide)

/-- Computation of the configured modeler when no nested modeler is
selected and the active modeler owns a sub-modeler: either the nested
options are applied onto the existing sub-modeler (multi-parameter branch)
or the sub-modeler is left untouched entirely (single-parameter branch);
in both cases the top-level options are applied onto the active
modeler. -/
theorem configure_modeler_none_sub (registry : List String) (M : Modeler)
    (opts : ModelerOptions) (sp0 : SingleParameterModeler)
    (hspm : opts.single_parameter_modeler = none)
    (hsub : M.single_parameter_modeler = some sp0) :
    configure_modeler registry M opts
      = Except.ok ⟨M.isMultiParameter,
          some ⟨sp0.NAME, apply_option_list sp0.attrs opts.single_parameter_options⟩,
          apply_option_list M.attrs opts.top_level⟩
    ∨ configure_modeler registry M opts
      = Except.ok ⟨M.isMultiParameter, some sp0, apply_option_list M.attrs opts.top_level⟩ := by
  unfold configure_modeler
  by_cases hmul : (M.isMultiParameter && !opts.isEmpty) = true
  · left
    rw [if_pos hmul, hspm, hsub]
  · right
    rw [if_neg hmul, hsub]

/-- C10: a modeler option whose parsed value is None is skipped during
configuration, at the top level and in the nested option set: the run
still finishes normally and the corresponding attributes of the strategy
instance and of its single-parameter sub-strategy keep exactly the values
they had before configuration. -/
theorem C10_theorem (env : Env) (args : Arguments) (exp : Experiment)
    (evs : List Event) (name k : String) (sp0 : SingleParameterModeler)
    (hspm : args.modeler_options.single_parameter_modeler = none)
    (hsub : (env.mk_modeler args.modeler args.median).single_parameter_modeler = some sp0)
    (hmemT : (name, (none : Option Value)) ∈ args.modeler_options.top_level)
    (hndT : (args.modeler_options.top_level.map Prod.fst).Nodup)
    (hmemS : (k, (none : Option Value)) ∈ args.modeler_options.single_parameter_options)
    (hndS : (args.modeler_options.single_parameter_options.map Prod.fst).Nodup) :
    ∃ m sp1, (afterLoad env args exp evs).2 = Outcome.finished exp m
      ∧ getattr m.attrs name = getattr (env.mk_modeler args.modeler args.median).attrs name
      ∧ m.single_parameter_modeler = some sp1
      ∧ getattr sp1.attrs k = getattr sp0.attrs k := by
  rcases configure_modeler_none_sub env.single_modelers
      (env.mk_modeler args.modeler args.median) args.modeler_options sp0 hspm hsub with
    hc | hc
  · refine ⟨⟨(env.mk_modeler args.modeler args.median).isMultiParameter,
        some ⟨sp0.NAME, apply_option_list sp0.attrs args.modeler_options.single_parameter_options⟩,
        apply_option_list (env.mk_modeler args.modeler args.median).attrs
          args.modeler_options.top_level⟩,
      ⟨sp0.NAME, apply_option_list sp0.attrs args.modeler_options.single_parameter_options⟩,
      ?_, ?_, rfl, ?_⟩
    · unfold afterLoad
      rw [hc]
      cases args.out <;> rfl
    · exact getattr_apply_option_list_skip _ _ _ hmemT hndT
    · exact getattr_apply_option_list_skip _ _ _ hmemS hndS
  · refine ⟨⟨(env.mk_modeler args.modeler args.median).isMultiParameter, some sp0,
        apply_option_list (env.mk_modeler args.modeler args.median).attrs
          args.modeler_options.top_level⟩,
      sp0, ?_, ?_, rfl, rfl⟩
    · unfold afterLoad
      rw [hc]
      cases args.out <;> rfl
    · exact getattr_apply_option_list_skip _ _ _ hmemT hndT

/-- C10 witness: the C10 theorem applied to the concrete multi-parameter
fixture whose top-level option alpha and nested option threshold both
carry the value None; the corresponding existing attribute values are
preserved. -/
theorem C10_witness :
    ∃ m sp1, (afterLoad envMulti args10 ⟨2⟩ []).2 = Outcome.finished ⟨2⟩ m
      ∧ getattr m.attrs "alpha"
          = getattr (envMulti.mk_modeler args10.modeler args10.median).attrs "alpha"
      ∧ m.single_parameter_modeler = some sp1
      ∧ getattr sp1.attrs "threshold"
          = getattr (⟨"Basic", [("threshold", Value.vint 3)]⟩ : SingleParameterModeler).attrs
              "threshold" :=
  C10_theorem envMulti args10 ⟨2⟩ [] "alpha" "threshold"
    ⟨"Basic", [("threshold", Value.vint 3)]⟩ rfl rfl (by decide) (by decide) (by decide)
    (by decide)

end ExtrapSpec
